import Mathlib

/-!
# syncscp: a shallow embedding of `main.go`

The program parses its flags into the package-level variables of `syncscp/config`,
validates them, splits the `-f` argument into a local and a remote path and then either
watches the local file or performs one SFTP transfer.

The pure parts (`checkArgs`, `getFilePath`) are Lean functions.  The effectful parts
(`SftpConnect`, `syncFile`, `monitorFile`, `main`) are functions from an initial `World`
and an `Env` (the answers of the operating system, the network and the remote server)
to a `Run`: how the process ended, the trace of external calls it made, and the final
state of the two file systems.
-/

namespace Syncscp

/-! ## Strings -/

/-- Go strings, as sequences of characters.  The only character the program inspects is
the ASCII colon, which never occurs inside the encoding of another character. -/
abbrev GoString := List Char

/-- The library function `strings.Split(s, sep)` for a separator of exactly one character (the program only
calls it with `":"`): the pieces of `s` between consecutive separators, in order.  A
string with `n` separators yields `n + 1` pieces. -/
def Split (s : GoString) (sep : Char) : List GoString :=
  match s with
  | [] => [[]]
  | c :: cs =>
    if c = sep then [] :: Split cs sep
    else
      match Split cs sep with
      | [] => [[c]]
      | x :: xs => (c :: x) :: xs

/-! ## Configuration (`syncscp/config`) -/

/-- The package-level variables of `syncscp/config`, as populated by `flag.Parse` from
the flag declarations in `init` (`-v -d -m -a -u -p -f -r`). -/
structure Config where
  Version : Bool
  Debug : Bool
  Monitor : Bool
  SSHAddress : GoString
  SSHUsername : GoString
  SSHPassword : GoString
  FilePath : GoString
  Reverse : Bool
  deriving DecidableEq, Repr

/-- The version string printed by `-v`. -/
def APPVersion : GoString := "1.0.0".toList

/-! ## Logging -/

/-- Failures reported by the environment. -/
inductive Err where
  /-- The error of opening a missing file without `O_CREATE`. -/
  | notExist (path : GoString)
  /-- Any other failure (network, authentication, permissions, I/O), by code. -/
  | external (code : Nat)
  deriving DecidableEq, Repr

/-- One argument of a `log.Println` / `log.Fatalln` call. -/
inductive LogArg where
  | str (s : GoString)
  | int (n : Nat)
  | err (e : Err)
  | event (name : GoString) (op : Nat)
  deriving DecidableEq, Repr

/-- The function `checkArgs`: the four required flags, checked in order; the result is the argument
list of the `log.Fatalln` call that ends the process, or `none` when all are present. -/
def checkArgs (config : Config) : Option (List LogArg) :=
  if config.SSHAddress = [] then some [.str "Please input address.".toList]
  else if config.SSHUsername = [] then some [.str "Please input user.".toList]
  else if config.SSHPassword = [] then some [.str "Please input password.".toList]
  else if config.FilePath = [] then some [.str "Please input file path".toList]
  else none

/-- The function `getFilePath`: split `config.FilePath` on `":"`; unless there are exactly two pieces
the process ends in `log.Fatalln` (the `error` case carries its arguments), otherwise
`local = v[0]` and `remote = v[1]`. -/
def getFilePath (config : Config) : Except (List LogArg) (GoString × GoString) :=
  let v := Split config.FilePath ':'
  if h : v.length ≠ 2 then
    .error [.str "Please input the correct file path".toList]
  else
    .ok (v.get ⟨0, by omega⟩, v.get ⟨1, by omega⟩)

/-! ## Files, file systems and the environment -/

/-- A regular file: its bytes and its permission bits. -/
structure File where
  content : List Nat
  mode : Nat
  deriving DecidableEq, Repr

/-- A file system: the regular file at each path, if there is one. -/
abbrev FS := GoString → Option File

/-- The file system with the file at `path` replaced by `f`. -/
def FS.set (fs : FS) (path : GoString) (f : File) : FS :=
  fun p => if p = path then some f else fs p

/-- The state the program acts on.  The local machine and the remote server are two
separate stores: a path of one never names a file of the other. -/
structure World where
  localFS : FS
  remoteFS : FS

/-- The flag `os.O_RDONLY`. -/
def O_RDONLY : Nat := 0x0
/-- The flag `os.O_WRONLY`. -/
def O_WRONLY : Nat := 0x1
/-- The flag `os.O_CREATE`. -/
def O_CREATE : Nat := 0x40
/-- The flag `os.O_TRUNC`. -/
def O_TRUNC : Nat := 0x200

/-- The flag `log.LstdFlags`. -/
def LstdFlags : Nat := 3
/-- The flag `log.Lshortfile`. -/
def Lshortfile : Nat := 16

/-- What the program receives from `select` over `watcher.Events` and `watcher.Errors`. -/
inductive WatchMsg where
  | event (name : GoString) (op : Nat)
  | eventsClosed
  | error (e : Err)
  | errorsClosed
  deriving DecidableEq, Repr

/-- The answers of everything outside the program.  Each `…Err` field says whether the
corresponding call fails for an external reason (`none`: it does not); the answers are
fixed for a run and do not depend on the contents of the file systems.  Opening a
missing file without `O_CREATE` fails whatever the environment says. -/
structure Env where
  /-- Failure of `ssh.Dial`. -/
  dialErr : Option Err
  /-- Failure of `sftp.NewClient`. -/
  newClientErr : Option Err
  /-- Failure of `client.OpenFile path flag`. -/
  remoteOpenErr : GoString → Nat → Option Err
  /-- Permission bits the server gives a file it creates. -/
  remoteCreateMode : Nat
  /-- Failure of `remoteFile.Chmod`. -/
  chmodErr : GoString → Option Err
  /-- Failure of `os.OpenFile path flag`. -/
  localOpenErr : GoString → Nat → Option Err
  /-- The umask of the process. -/
  umask : Nat
  /-- Failure of `io.Copy`: after how many bytes written, and the error. -/
  copyErr : Option (Nat × Err)
  /-- Failure of `fsnotify.NewWatcher`. -/
  newWatcherErr : Option Err
  /-- Failure of `watcher.Add path`. -/
  watcherAddErr : GoString → Option Err
  /-- The notifications delivered to the watch loop, in order of receipt. -/
  watch : List WatchMsg

/-- Opening `path` with `flag`: without external failure, a missing file is created empty
with `createMode` when `O_CREATE` is set and is an error otherwise; an existing file is
emptied when `O_TRUNC` is set and keeps its mode. -/
def openFile (fs : FS) (path : GoString) (flag createMode : Nat) (deny : Option Err) :
    Except Err FS :=
  match deny with
  | some e => .error e
  | none =>
    match fs path with
    | none =>
      if flag &&& O_CREATE ≠ 0 then .ok (fs.set path ⟨[], createMode⟩)
      else .error (.notExist path)
    | some f =>
      if flag &&& O_TRUNC ≠ 0 then .ok (fs.set path ⟨[], f.mode⟩)
      else .ok fs

/-- Setting the permission bits of the file at `path`. -/
def chmod (fs : FS) (path : GoString) (mode : Nat) (deny : Option Err) : Except Err FS :=
  match deny with
  | some e => .error e
  | none =>
    match fs path with
    | none => .error (.notExist path)
    | some f => .ok (fs.set path ⟨f.content, mode⟩)

/-- Writing `data` at offset 0 through a handle on `path`: the first `data.length` bytes
are overwritten, what lies beyond them stays. -/
def FS.write (fs : FS) (path : GoString) (data : List Nat) : FS :=
  match fs path with
  | none => fs
  | some f => fs.set path ⟨data ++ f.content.drop data.length, f.mode⟩

/-- The library function `io.Copy(dst, src)` on two freshly opened handles: the bytes of the source, read from
offset 0 to end of file, are written to the destination from offset 0.  On failure only
the first `k` bytes have been written. -/
def ioCopy (srcFS : FS) (src : GoString) (dstFS : FS) (dst : GoString)
    (fail : Option (Nat × Err)) : FS × Except Err Nat :=
  let data := match srcFS src with
    | some f => f.content
    | none => []
  match fail with
  | some (k, e) => (dstFS.write dst (data.take k), .error e)
  | none => (dstFS.write dst data, .ok data.length)

/-! ## Runs -/

/-- The `ssh.ClientConfig` built by `SftpConnect`. -/
structure ClientConfig where
  User : GoString
  /-- The password of the single `ssh.Password` method. -/
  Auth : List GoString
  /-- The dial timeout, in seconds. -/
  Timeout : Nat
  /-- Whether `HostKeyCallback` returns `nil` for every host key. -/
  HostKeyCallbackAcceptsAll : Bool
  deriving DecidableEq, Repr

/-- The external calls of the program, in the order it makes them. -/
inductive Event where
  /-- A `log.Println` call. -/
  | println (args : List LogArg)
  /-- A `log.Fatalln` or `log.Fatal` call: the message is printed and the process exits. -/
  | fatal (args : List LogArg)
  /-- A `flag.Usage` call. -/
  | usage
  /-- A `log.SetFlags` call. -/
  | setFlags (flags : Nat)
  /-- A `ssh.Dial` call. -/
  | dial (network address : GoString) (clientConfig : ClientConfig)
  /-- A `sftp.NewClient` call. -/
  | newClient
  /-- A `client.OpenFile` call. -/
  | clientOpenFile (path : GoString) (flag : Nat)
  /-- A `remoteFile.Chmod` call. -/
  | fileChmod (path : GoString) (mode : Nat)
  /-- A `os.OpenFile` call. -/
  | osOpenFile (path : GoString) (flag perm : Nat)
  /-- A `io.Copy` call. -/
  | ioCopy
  /-- A `localFile.Close` call. -/
  | localFileClose
  /-- A `remoteFile.Close` call. -/
  | remoteFileClose
  /-- A `client.Close` call. -/
  | clientClose
  /-- A `fsnotify.NewWatcher` call. -/
  | newWatcher
  /-- A `watcher.Add` call. -/
  | watcherAdd (path : GoString)
  /-- A `watcher.Close` call. -/
  | watcherClose
  deriving DecidableEq, Repr

/-- A connection attempt. -/
def Event.isConnect : Event → Bool
  | .dial _ _ _ => true
  | .newClient => true
  | _ => false

/-- A file open, local or remote. -/
def Event.isOpen : Event → Bool
  | .clientOpenFile _ _ => true
  | .osOpenFile _ _ _ => true
  | _ => false

/-- How a run ends. -/
inductive Outcome where
  /-- The function returned to its caller (for `main`: exit status 0). -/
  | returned
  /-- The process ended in `os.Exit code`; deferred calls do not run. -/
  | exited (code : Nat)
  /-- The process waits for a notification that the environment never delivers. -/
  | blocked
  deriving DecidableEq, Repr

/-- A run: how it ended, the calls made, the file systems left behind. -/
structure Run where
  outcome : Outcome
  trace : List Event
  world : World

/-- The run `r` preceded by the calls `t`. -/
def Run.after (t : List Event) (r : Run) : Run :=
  ⟨r.outcome, t ++ r.trace, r.world⟩

/-! ## The program -/

/-- The function `SftpConnect`: dial with password authentication, a 30 second timeout and a host key
callback that accepts every key, then start the SFTP client; either failure is logged
and returned.  The result is the calls made and the error, if any. -/
def SftpConnect (env : Env) (user password address : GoString) :
    List Event × Except Err Unit :=
  let auth := [] ++ [password]
  let clientConfig : ClientConfig := ⟨user, auth, 30, true⟩
  match env.dialErr with
  | some err =>
    ([.dial "tcp".toList address clientConfig, .println [.str "ERROR:".toList, .err err]],
      .error err)
  | none =>
    match env.newClientErr with
    | some err =>
      ([.dial "tcp".toList address clientConfig, .newClient,
        .println [.str "ERROR:".toList, .err err]], .error err)
    | none => ([.dial "tcp".toList address clientConfig, .newClient], .ok ())

/-- The function `syncFile`: connect, open the remote file, set its mode when pushing, open the local
file, copy from source to destination, log the byte count.  Every failure ends in
`log.Fatalln`, which exits the process without running the deferred `Close` calls; on
normal return they run in reverse order of their `defer`. -/
def syncFile (config : Config) (env : Env) (localFilePath remoteFilePath : GoString)
    (w : World) : Run :=
  match SftpConnect env config.SSHUsername config.SSHPassword config.SSHAddress with
  | (t0, .error err) => ⟨.exited 1, t0 ++ [.fatal [.err err]], w⟩
  | (t0, .ok ()) =>
    let openFlag := if config.Reverse = false then O_WRONLY ||| O_CREATE ||| O_TRUNC
      else O_RDONLY
    let t1 := t0 ++ [.clientOpenFile remoteFilePath openFlag]
    match openFile w.remoteFS remoteFilePath openFlag env.remoteCreateMode
        (env.remoteOpenErr remoteFilePath openFlag) with
    | .error err => ⟨.exited 1, t1 ++ [.fatal [.err err]], w⟩
    | .ok rfs1 =>
      let chmodStep : List Event × Except Err FS :=
        if config.Reverse = false then
          ([.fileChmod remoteFilePath 0o644],
            chmod rfs1 remoteFilePath 0o644 (env.chmodErr remoteFilePath))
        else ([], .ok rfs1)
      match chmodStep with
      | (tc, .error err) => ⟨.exited 1, t1 ++ tc ++ [.fatal [.err err]], ⟨w.localFS, rfs1⟩⟩
      | (tc, .ok rfs2) =>
        let openFlag := if config.Reverse then O_WRONLY ||| O_CREATE ||| O_TRUNC
          else O_RDONLY
        let t2 := t1 ++ tc ++ [.osOpenFile localFilePath openFlag 0o644]
        match openFile w.localFS localFilePath openFlag (0o644 - (0o644 &&& env.umask))
            (env.localOpenErr localFilePath openFlag) with
        | .error err => ⟨.exited 1, t2 ++ [.fatal [.err err]], ⟨w.localFS, rfs2⟩⟩
        | .ok lfs1 =>
          let copied : World × Except Err Nat :=
            if config.Reverse then
              let r := ioCopy rfs2 remoteFilePath lfs1 localFilePath env.copyErr
              (⟨r.1, rfs2⟩, r.2)
            else
              let r := ioCopy lfs1 localFilePath rfs2 remoteFilePath env.copyErr
              (⟨lfs1, r.1⟩, r.2)
          match copied with
          | (w3, .error err) => ⟨.exited 1, t2 ++ [.ioCopy, .fatal [.err err]], w3⟩
          | (w3, .ok n) =>
            ⟨.returned,
              t2 ++ [.ioCopy,
                .println [.str "Transfer bytes:".toList, .int n, .str "finished.".toList],
                .localFileClose, .remoteFileClose, .clientClose], w3⟩

/-- The `for`/`select` loop of `monitorFile` on the notifications it receives: an event
is logged (the re-sync on a write event is commented out in the source), an error is
logged, a closed channel makes the function return. -/
def monitorLoop : List WatchMsg → Outcome × List Event
  | [] => (.blocked, [])
  | .event name op :: rest =>
    let r := monitorLoop rest
    (r.1, .println [.str "event:".toList, .event name op] :: r.2)
  | .eventsClosed :: _ => (.returned, [])
  | .error e :: rest =>
    let r := monitorLoop rest
    (r.1, .println [.str "error:".toList, .err e] :: r.2)
  | .errorsClosed :: _ => (.returned, [])

/-- The function `monitorFile`: create a watcher, add the local path, run the loop; the deferred
`watcher.Close` runs when the function returns.  `remoteFilePath` is unused. -/
def monitorFile (env : Env) (localFilePath _remoteFilePath : GoString) (w : World) : Run :=
  match env.newWatcherErr with
  | some err => ⟨.exited 1, [.newWatcher, .fatal [.err err]], w⟩
  | none =>
    match env.watcherAddErr localFilePath with
    | some err => ⟨.exited 1, [.newWatcher, .watcherAdd localFilePath, .fatal [.err err]], w⟩
    | none =>
      let r := monitorLoop env.watch
      let closing : List Event := if r.1 = .returned then [.watcherClose] else []
      ⟨r.1, [.newWatcher, .watcherAdd localFilePath] ++ r.2 ++ closing, w⟩

/-- The function `main`, after `flag.Parse` has filled `config`; `osArgsLen` is `len(os.Args)`. -/
def main (osArgsLen : Nat) (config : Config) (env : Env) (w : World) : Run :=
  if config.Version then
    ⟨.returned, [.println [.str "Version:".toList, .str APPVersion]], w⟩
  else if osArgsLen = 1 then
    ⟨.returned, [.usage], w⟩
  else
    match checkArgs config with
    | some msg => ⟨.exited 1, [.fatal msg], w⟩
    | none =>
      let t0 : List Event :=
        if config.Debug then [.setFlags (LstdFlags ||| Lshortfile)] else [.setFlags 0]
      match getFilePath config with
      | .error msg => ⟨.exited 1, t0 ++ [.fatal msg], w⟩
      | .ok (localFilePath, remoteFilePath) =>
        if config.Monitor then
          if config.Reverse then
            ⟨.returned, t0 ++ [.println [.str ("monitoring mode. Only support monitor " ++
              "push the local file to the remote end").toList]], w⟩
          else
            (monitorFile env localFilePath remoteFilePath w).after t0
        else
          (syncFile config env localFilePath remoteFilePath w).after t0

/-! ## Sample inputs -/

/-- An environment in which no call fails for an external reason and no notification
arrives. -/
def okEnv : Env :=
  { dialErr := none, newClientErr := none, remoteOpenErr := fun _ _ => none,
    remoteCreateMode := 0o664, chmodErr := fun _ => none, localOpenErr := fun _ _ => none,
    umask := 0o022, copyErr := none, newWatcherErr := none, watcherAddErr := fun _ => none,
    watch := [] }

/-- A world with the local file `a` (three bytes) and the remote file `r` (five bytes). -/
def sampleWorld : World :=
  { localFS := fun p => if p = "a".toList then some ⟨[1, 2, 3], 0o600⟩ else none,
    remoteFS := fun p => if p = "r".toList then some ⟨[9, 9, 9, 9, 9], 0o600⟩ else none }

/-- A configuration with all required flags, the given path spec and mode flags. -/
def sampleConfig (filePath : GoString) (monitor reverse : Bool) : Config :=
  { Version := false, Debug := false, Monitor := monitor, SSHAddress := "h:22".toList,
    SSHUsername := "u".toList, SSHPassword := "p".toList, FilePath := filePath,
    Reverse := reverse }

/-! ## Lemmas on `Split` -/

theorem Split_ne_nil (s : GoString) (sep : Char) : Split s sep ≠ [] := by
  induction s with
  | nil => simp [Split]
  | cons c cs ih =>
    unfold Split
    split
    · simp
    · split <;> simp

theorem Split_length (s : GoString) (sep : Char) :
    (Split s sep).length = s.count sep + 1 := by
  induction s with
  | nil => simp [Split]
  | cons c cs ih =>
    unfold Split
    by_cases hc : c = sep
    · subst hc
      simp [ih]
    · have hne : Split cs sep ≠ [] := Split_ne_nil cs sep
      rw [if_neg hc]
      cases hs : Split cs sep with
      | nil => exact absurd hs hne
      | cons x xs =>
        rw [hs] at ih
        have hc2 : (c == sep) = false := by simpa using hc
        simp [List.count_cons, hc2] at ih ⊢
        omega

/-- A string without the separator is its own single piece. -/
theorem Split_of_count_zero (s : GoString) (sep : Char) (h : s.count sep = 0) :
    Split s sep = [s] := by
  induction s with
  | nil => simp [Split]
  | cons c cs ih =>
    have hc : c ≠ sep := by
      intro hc
      subst hc
      simp at h
    have hcs : cs.count sep = 0 := by
      have hc2 : (c == sep) = false := by simpa using hc
      simpa [List.count_cons, hc2] using h
    unfold Split
    rw [if_neg hc, ih hcs]

/-- A string with exactly one separator splits into the part before it and the part
after it. -/
theorem Split_of_count_one (s : GoString) (sep : Char) (h : s.count sep = 1) :
    ∃ a b, Split s sep = [a, b] ∧ a ++ sep :: b = s ∧ sep ∉ a ∧ sep ∉ b := by
  induction s with
  | nil => simp at h
  | cons c cs ih =>
    by_cases hc : c = sep
    · subst hc
      have hcs : cs.count c = 0 := by simpa using h
      refine ⟨[], cs, ?_, rfl, by simp, ?_⟩
      · unfold Split
        rw [if_pos rfl, Split_of_count_zero cs c hcs]
      · exact List.count_eq_zero.mp hcs
    · have hc2 : (c == sep) = false := by simpa using hc
      have hcs : cs.count sep = 1 := by
        simpa [List.count_cons, hc2] using h
      obtain ⟨a, b, hab, hjoin, ha, hb⟩ := ih hcs
      refine ⟨c :: a, b, ?_, by simp [hjoin], ?_, hb⟩
      · unfold Split
        rw [if_neg hc, hab]
      · simp only [List.mem_cons, not_or]
        exact ⟨fun h => hc h.symm, ha⟩

/-! ## Lemmas on files -/

theorem FS.set_same (fs : FS) (p : GoString) (f : File) : fs.set p f p = some f := by
  simp [FS.set]

theorem FS.set_set (fs : FS) (p : GoString) (f g : File) :
    (fs.set p f).set p g = fs.set p g := by
  funext q
  simp only [FS.set]
  split <;> rfl

theorem wct_create : (O_WRONLY ||| O_CREATE ||| O_TRUNC) &&& O_CREATE ≠ 0 := by decide

theorem wct_trunc : (O_WRONLY ||| O_CREATE ||| O_TRUNC) &&& O_TRUNC ≠ 0 := by decide

theorem rdonly_create : O_RDONLY &&& O_CREATE = 0 := by decide

theorem rdonly_trunc : O_RDONLY &&& O_TRUNC = 0 := by decide

/-- Opening with create and truncate succeeds exactly when the environment lets it, and
leaves an empty file at the path: with the old mode if there was a file, with the
creation mode otherwise. -/
theorem openFile_wct (fs : FS) (p : GoString) (cm : Nat) :
    openFile fs p (O_WRONLY ||| O_CREATE ||| O_TRUNC) cm none =
      .ok (fs.set p ⟨[], match fs p with
        | some f => f.mode
        | none => cm⟩) := by
  unfold openFile
  cases hp : fs p with
  | none => simp only [if_pos wct_create]
  | some f => simp only [if_pos wct_trunc]

/-- Opening an existing file read-only changes nothing. -/
theorem openFile_rdonly_some (fs : FS) (p : GoString) (cm : Nat) (f : File)
    (hp : fs p = some f) : openFile fs p O_RDONLY cm none = .ok fs := by
  unfold openFile
  simp [hp, rdonly_trunc]

/-- Opening a missing file read-only fails. -/
theorem openFile_rdonly_none (fs : FS) (p : GoString) (cm : Nat) (deny : Option Err)
    (hp : fs p = none) : ∃ e, openFile fs p O_RDONLY cm deny = .error e := by
  unfold openFile
  cases deny with
  | some e => exact ⟨e, rfl⟩
  | none => exact ⟨.notExist p, by simp [hp, rdonly_create]⟩

/-- An open that the environment refuses fails. -/
theorem openFile_deny (fs : FS) (p : GoString) (flag cm : Nat) (e : Err) :
    openFile fs p flag cm (some e) = .error e := rfl

/-- Copying onto an empty destination file leaves exactly the bytes of the source. -/
theorem ioCopy_onto_empty (srcFS dstFS : FS) (src dst : GoString) (f : File) (m : Nat)
    (hs : srcFS src = some f) (hd : dstFS dst = some ⟨[], m⟩) :
    ioCopy srcFS src dstFS dst none = (dstFS.set dst ⟨f.content, m⟩, .ok f.content.length) := by
  simp [ioCopy, FS.write, hs, hd]

/-! ## Lemmas on `syncFile` -/

/-- A push in which no call is refused and the local source exists: it returns, and the
remote file holds the local bytes with mode `0644`. -/
theorem syncFile_push_ok (config : Config) (env : Env) (F R : GoString) (w : World)
    (f : File) (hrev : config.Reverse = false) (hd : env.dialErr = none)
    (hn : env.newClientErr = none)
    (hro : env.remoteOpenErr R (O_WRONLY ||| O_CREATE ||| O_TRUNC) = none)
    (hch : env.chmodErr R = none) (hlo : env.localOpenErr F O_RDONLY = none)
    (hcp : env.copyErr = none) (hF : w.localFS F = some f) :
    (syncFile config env F R w).outcome = .returned ∧
    (syncFile config env F R w).world = ⟨w.localFS, w.remoteFS.set R ⟨f.content, 0o644⟩⟩ := by
  unfold syncFile SftpConnect
  simp only [hrev, hd, hn, hro, hch, hlo, hcp, if_true, Bool.false_eq_true, if_false,
    openFile_wct, chmod, FS.set_same, FS.set_set, openFile_rdonly_some _ _ _ f hF]
  rw [ioCopy_onto_empty w.localFS _ F R f 0o644 hF (FS.set_same _ _ _)]
  simp [FS.set_set]

/-- A push that returns: no call was refused and the local source exists. -/
theorem syncFile_push_returned (config : Config) (env : Env) (F R : GoString) (w : World)
    (hrev : config.Reverse = false)
    (hok : (syncFile config env F R w).outcome = .returned) :
    env.dialErr = none ∧ env.newClientErr = none ∧
    env.remoteOpenErr R (O_WRONLY ||| O_CREATE ||| O_TRUNC) = none ∧
    env.chmodErr R = none ∧ env.localOpenErr F O_RDONLY = none ∧ env.copyErr = none ∧
    ∃ f, w.localFS F = some f := by
  unfold syncFile SftpConnect at hok
  simp only [hrev, if_true, Bool.false_eq_true, if_false] at hok
  cases hd : env.dialErr with
  | some e => simp [hd] at hok
  | none =>
  cases hn : env.newClientErr with
  | some e => simp [hd, hn] at hok
  | none =>
  cases hro : env.remoteOpenErr R (O_WRONLY ||| O_CREATE ||| O_TRUNC) with
  | some e => simp [hd, hn, hro, openFile_deny] at hok
  | none =>
  cases hch : env.chmodErr R with
  | some e => simp [hd, hn, hro, hch, openFile_wct, chmod] at hok
  | none =>
  cases hlo : env.localOpenErr F O_RDONLY with
  | some e => simp [hd, hn, hro, hch, hlo, openFile_wct, chmod, FS.set_same, openFile_deny] at hok
  | none =>
  cases hF : w.localFS F with
  | none =>
    obtain ⟨e, he⟩ := openFile_rdonly_none w.localFS F (0o644 - (0o644 &&& env.umask)) none hF
    simp [hd, hn, hro, hch, hlo, openFile_wct, chmod, FS.set_same, he] at hok
  | some f =>
  cases hcp : env.copyErr with
  | some ke =>
    simp [hd, hn, hro, hch, hlo, hcp, openFile_wct, chmod, FS.set_same,
      openFile_rdonly_some _ _ _ f hF, ioCopy] at hok
  | none => exact ⟨rfl, rfl, rfl, rfl, rfl, rfl, f, rfl⟩

/-- A pull in which no call is refused and the remote source exists: it returns, the
local file holds the remote bytes, with its old mode or the creation mode, and the
remote file system is as before. -/
theorem syncFile_pull_ok (config : Config) (env : Env) (L R : GoString) (w : World)
    (f : File) (hrev : config.Reverse = true) (hd : env.dialErr = none)
    (hn : env.newClientErr = none) (hro : env.remoteOpenErr R O_RDONLY = none)
    (hlo : env.localOpenErr L (O_WRONLY ||| O_CREATE ||| O_TRUNC) = none)
    (hcp : env.copyErr = none) (hR : w.remoteFS R = some f) :
    (syncFile config env L R w).outcome = .returned ∧
    (syncFile config env L R w).world =
      ⟨w.localFS.set L ⟨f.content, match w.localFS L with
        | some g => g.mode
        | none => 0o644 - (0o644 &&& env.umask)⟩, w.remoteFS⟩ := by
  unfold syncFile SftpConnect
  simp only [hrev, hd, hn, hro, hlo, hcp, if_true, Bool.true_eq_false, if_false,
    openFile_wct, openFile_rdonly_some _ _ _ f hR]
  rw [ioCopy_onto_empty w.remoteFS _ R L f _ hR (FS.set_same _ _ _)]
  simp [FS.set_set]

/-- A pull that returns: no call was refused and the remote source exists. -/
theorem syncFile_pull_returned (config : Config) (env : Env) (L R : GoString) (w : World)
    (hrev : config.Reverse = true)
    (hok : (syncFile config env L R w).outcome = .returned) :
    env.dialErr = none ∧ env.newClientErr = none ∧ env.remoteOpenErr R O_RDONLY = none ∧
    env.localOpenErr L (O_WRONLY ||| O_CREATE ||| O_TRUNC) = none ∧ env.copyErr = none ∧
    ∃ f, w.remoteFS R = some f := by
  unfold syncFile SftpConnect at hok
  simp only [hrev, if_true, Bool.true_eq_false, if_false] at hok
  cases hd : env.dialErr with
  | some e => simp [hd] at hok
  | none =>
  cases hn : env.newClientErr with
  | some e => simp [hd, hn] at hok
  | none =>
  cases hro : env.remoteOpenErr R O_RDONLY with
  | some e => simp [hd, hn, hro, openFile_deny] at hok
  | none =>
  cases hR : w.remoteFS R with
  | none =>
    obtain ⟨e, he⟩ := openFile_rdonly_none w.remoteFS R env.remoteCreateMode none hR
    simp [hd, hn, hro, he] at hok
  | some f =>
  cases hlo : env.localOpenErr L (O_WRONLY ||| O_CREATE ||| O_TRUNC) with
  | some e =>
    simp [hd, hn, hro, hlo, openFile_rdonly_some _ _ _ f hR, openFile_deny] at hok
  | none =>
  cases hcp : env.copyErr with
  | some ke =>
    simp [hd, hn, hro, hlo, hcp, openFile_wct, openFile_rdonly_some _ _ _ f hR, ioCopy] at hok
  | none => exact ⟨rfl, rfl, rfl, rfl, rfl, f, rfl⟩

/-! ## Path resolution -/

/-- C1: when `config.FilePath` contains exactly one `':'`, `getFilePath` does not end
the process and returns the part before the colon as `local` and the part after it as
`remote`: `local ++ ":" ++ remote` is the input and neither part contains a colon. -/
theorem getFilePath_one_colon (config : Config)
    (h : config.FilePath.count ':' = 1) :
    ∃ l r, getFilePath config = .ok (l, r) ∧
      l ++ ':' :: r = config.FilePath ∧ ':' ∉ l ∧ ':' ∉ r := by
  obtain ⟨a, b, hab, hjoin, ha, hb⟩ := Split_of_count_one config.FilePath ':' h
  refine ⟨a, b, ?_, hjoin, ha, hb⟩
  unfold getFilePath
  simp [hab]

/-- The C1 statement at the path spec `a:r`. -/
theorem getFilePath_one_colon_witness :
    ∃ l r, getFilePath (sampleConfig "a:r".toList false false) = .ok (l, r) ∧
      l ++ ':' :: r = "a:r".toList ∧ ':' ∉ l ∧ ':' ∉ r :=
  getFilePath_one_colon (sampleConfig "a:r".toList false false) (by decide)

/-- C2: with the version flag off, arguments on the command line and the four required
flags non-empty, a path spec whose number of `':'` is not one makes `main` end in the
`log.Fatalln` of `getFilePath`: the trace is the `log.SetFlags` call followed by that
fatal message, it contains no connection attempt and no file open, and the file systems
are untouched. -/
theorem main_fatal_of_colon_count_ne_one (osArgsLen : Nat) (config : Config) (env : Env)
    (w : World) (hv : config.Version = false) (hargs : osArgsLen ≠ 1)
    (ha : config.SSHAddress ≠ []) (hu : config.SSHUsername ≠ [])
    (hp : config.SSHPassword ≠ []) (hf : config.FilePath ≠ [])
    (h : config.FilePath.count ':' ≠ 1) :
    (main osArgsLen config env w).outcome = .exited 1 ∧
    (main osArgsLen config env w).trace =
      [.setFlags (if config.Debug then LstdFlags ||| Lshortfile else 0),
       .fatal [.str "Please input the correct file path".toList]] ∧
    (∀ e ∈ (main osArgsLen config env w).trace, e.isConnect = false ∧ e.isOpen = false) ∧
    (main osArgsLen config env w).world = w := by
  have hlen : (Split config.FilePath ':').length ≠ 2 := by
    rw [Split_length]
    omega
  have hg : getFilePath config = .error [.str "Please input the correct file path".toList] := by
    unfold getFilePath
    simp [hlen]
  have hc : checkArgs config = none := by
    simp [checkArgs, ha, hu, hp, hf]
  have hm : main osArgsLen config env w =
      ⟨.exited 1, [.setFlags (if config.Debug then LstdFlags ||| Lshortfile else 0),
        .fatal [.str "Please input the correct file path".toList]], w⟩ := by
    unfold main
    simp only [hv, hargs, hc, hg]
    cases config.Debug <;> simp
  rw [hm]
  refine ⟨rfl, rfl, ?_, rfl⟩
  intro e he
  simp only [List.mem_cons, List.mem_singleton, List.not_mem_nil, or_false] at he
  rcases he with he | he <;> subst he <;> exact ⟨rfl, rfl⟩

/-- The C2 statement at the path spec `a:b:c`, which has two colons. -/
theorem main_fatal_of_colon_count_ne_one_witness :
    (main 9 (sampleConfig "a:b:c".toList false false) okEnv sampleWorld).outcome = .exited 1 ∧
    (main 9 (sampleConfig "a:b:c".toList false false) okEnv sampleWorld).trace =
      [.setFlags 0, .fatal [.str "Please input the correct file path".toList]] ∧
    (∀ e ∈ (main 9 (sampleConfig "a:b:c".toList false false) okEnv sampleWorld).trace,
      e.isConnect = false ∧ e.isOpen = false) ∧
    (main 9 (sampleConfig "a:b:c".toList false false) okEnv sampleWorld).world = sampleWorld :=
  main_fatal_of_colon_count_ne_one 9 (sampleConfig "a:b:c".toList false false) okEnv
    sampleWorld rfl (by decide) (by decide) (by decide) (by decide) (by decide) (by decide)

/-- C10: when the run reaches the mode switch of `main` (version flag off, arguments on
the command line, `checkArgs` and `getFilePath` pass) with `Monitor` and `Reverse` both
set, `main` logs the incompatibility message and returns: the trace is the
`log.SetFlags` call and that message, so no watcher is created, no connection is
attempted and no file is opened, and the file systems are untouched. -/
theorem main_monitor_reverse (osArgsLen : Nat) (config : Config) (env : Env) (w : World)
    (l r : GoString)
    (hv : config.Version = false) (hargs : osArgsLen ≠ 1) (hc : checkArgs config = none)
    (hg : getFilePath config = .ok (l, r))
    (hm : config.Monitor = true) (hr : config.Reverse = true) :
    (main osArgsLen config env w).outcome = .returned ∧
    (main osArgsLen config env w).trace =
      [.setFlags (if config.Debug then LstdFlags ||| Lshortfile else 0),
       .println [.str ("monitoring mode. Only support monitor " ++
         "push the local file to the remote end").toList]] ∧
    (∀ e ∈ (main osArgsLen config env w).trace,
      e ≠ .newWatcher ∧ e.isConnect = false ∧ e.isOpen = false) ∧
    (main osArgsLen config env w).world = w := by
  have hmain : main osArgsLen config env w =
      ⟨.returned, [.setFlags (if config.Debug then LstdFlags ||| Lshortfile else 0),
        .println [.str ("monitoring mode. Only support monitor " ++
          "push the local file to the remote end").toList]], w⟩ := by
    unfold main
    simp only [hv, hargs, hc, hg, hm, hr]
    cases config.Debug <;> simp
  rw [hmain]
  refine ⟨rfl, rfl, ?_, rfl⟩
  intro e he
  simp only [List.mem_cons, List.mem_singleton, List.not_mem_nil, or_false] at he
  rcases he with he | he <;> subst he <;> exact ⟨by simp, rfl, rfl⟩

/-- The C10 statement at the path spec `a:r`. -/
theorem main_monitor_reverse_witness :
    (main 9 (sampleConfig "a:r".toList true true) okEnv sampleWorld).outcome = .returned ∧
    (main 9 (sampleConfig "a:r".toList true true) okEnv sampleWorld).trace =
      [.setFlags 0,
       .println [.str ("monitoring mode. Only support monitor " ++
         "push the local file to the remote end").toList]] ∧
    (∀ e ∈ (main 9 (sampleConfig "a:r".toList true true) okEnv sampleWorld).trace,
      e ≠ .newWatcher ∧ e.isConnect = false ∧ e.isOpen = false) ∧
    (main 9 (sampleConfig "a:r".toList true true) okEnv sampleWorld).world = sampleWorld :=
  main_monitor_reverse 9 (sampleConfig "a:r".toList true true) okEnv sampleWorld
    "a".toList "r".toList rfl (by decide) (by decide) rfl rfl rfl

/-! ## Transfers -/

/-- C4: a push (`Reverse = false`) of the local file `F` with content `C` that returns
leaves at the remote path `R` a file with content exactly `C` and mode `0644`, whatever
was at `R` before. -/
theorem syncFile_push_content (config : Config) (env : Env) (F R : GoString) (w : World)
    (C : List Nat) (m : Nat) (hrev : config.Reverse = false)
    (hF : w.localFS F = some ⟨C, m⟩)
    (hok : (syncFile config env F R w).outcome = .returned) :
    (syncFile config env F R w).world.remoteFS R = some ⟨C, 0o644⟩ := by
  obtain ⟨hd, hn, hro, hch, hlo, hcp, _⟩ := syncFile_push_returned config env F R w hrev hok
  rw [(syncFile_push_ok config env F R w ⟨C, m⟩ hrev hd hn hro hch hlo hcp hF).2]
  exact FS.set_same _ _ _

/-- The C4 statement for the local file `a` and the existing remote file `r`. -/
theorem syncFile_push_content_witness :
    (syncFile (sampleConfig "a:r".toList false false) okEnv "a".toList "r".toList
      sampleWorld).world.remoteFS "r".toList = some ⟨[1, 2, 3], 0o644⟩ :=
  syncFile_push_content (sampleConfig "a:r".toList false false) okEnv "a".toList "r".toList
    sampleWorld [1, 2, 3] 0o600 rfl rfl rfl

/-- With `Reverse = true` no run of `syncFile` calls `Chmod`. -/
theorem syncFile_pull_no_chmod (config : Config) (env : Env) (L R : GoString) (w : World)
    (hrev : config.Reverse = true) (p : GoString) (md : Nat) :
    Event.fileChmod p md ∉ (syncFile config env L R w).trace := by
  unfold syncFile SftpConnect
  simp only [hrev, if_true, Bool.true_eq_false, if_false]
  cases env.dialErr with
  | some e => simp
  | none =>
  cases env.newClientErr with
  | some e => simp
  | none =>
  cases openFile w.remoteFS R O_RDONLY env.remoteCreateMode (env.remoteOpenErr R O_RDONLY) with
  | error e => simp
  | ok rfs1 =>
  cases openFile w.localFS L (O_WRONLY ||| O_CREATE ||| O_TRUNC)
      (0o644 - (0o644 &&& env.umask))
      (env.localOpenErr L (O_WRONLY ||| O_CREATE ||| O_TRUNC)) with
  | error e => simp
  | ok lfs1 =>
  cases env.copyErr <;> simp [ioCopy]

/-- C5: a pull (`Reverse = true`) of the remote file `R` with content `C` that returns
leaves at the local path `L` a file with content exactly `C`, whatever was at `L`
before; no `Chmod` is called and the remote file system is unchanged. -/
theorem syncFile_pull_content (config : Config) (env : Env) (L R : GoString) (w : World)
    (C : List Nat) (m : Nat) (hrev : config.Reverse = true)
    (hR : w.remoteFS R = some ⟨C, m⟩)
    (hok : (syncFile config env L R w).outcome = .returned) :
    (∃ f, (syncFile config env L R w).world.localFS L = some f ∧ f.content = C) ∧
    (∀ p md, Event.fileChmod p md ∉ (syncFile config env L R w).trace) ∧
    (syncFile config env L R w).world.remoteFS = w.remoteFS := by
  obtain ⟨hd, hn, hro, hlo, hcp, _⟩ := syncFile_pull_returned config env L R w hrev hok
  refine ⟨?_, fun p md => syncFile_pull_no_chmod config env L R w hrev p md, ?_⟩
  · rw [(syncFile_pull_ok config env L R w ⟨C, m⟩ hrev hd hn hro hlo hcp hR).2]
    exact ⟨_, FS.set_same _ _ _, rfl⟩
  · rw [(syncFile_pull_ok config env L R w ⟨C, m⟩ hrev hd hn hro hlo hcp hR).2]

/-- The C5 statement for the remote file `r` and the existing local file `a`. -/
theorem syncFile_pull_content_witness :
    (∃ f, (syncFile (sampleConfig "a:r".toList false true) okEnv "a".toList "r".toList
      sampleWorld).world.localFS "a".toList = some f ∧ f.content = [9, 9, 9, 9, 9]) ∧
    (∀ p md, Event.fileChmod p md ∉ (syncFile (sampleConfig "a:r".toList false true) okEnv
      "a".toList "r".toList sampleWorld).trace) ∧
    (syncFile (sampleConfig "a:r".toList false true) okEnv "a".toList "r".toList
      sampleWorld).world.remoteFS = sampleWorld.remoteFS :=
  syncFile_pull_content (sampleConfig "a:r".toList false true) okEnv "a".toList "r".toList
    sampleWorld [9, 9, 9, 9, 9] 0o600 rfl rfl rfl

/-- C6: when a transfer returns, in either direction, the same transfer run again on the
state it produced (in the same environment) returns too and produces that same state:
both file systems, hence the destination file, are as the first run left them. -/
theorem syncFile_idempotent (config : Config) (env : Env) (l r : GoString) (w : World)
    (hok : (syncFile config env l r w).outcome = .returned) :
    (syncFile config env l r (syncFile config env l r w).world).outcome = .returned ∧
    (syncFile config env l r (syncFile config env l r w).world).world =
      (syncFile config env l r w).world ∧
    (if config.Reverse then
      (syncFile config env l r (syncFile config env l r w).world).world.localFS l =
        (syncFile config env l r w).world.localFS l
     else
      (syncFile config env l r (syncFile config env l r w).world).world.remoteFS r =
        (syncFile config env l r w).world.remoteFS r) := by
  have key : (syncFile config env l r (syncFile config env l r w).world).outcome = .returned ∧
      (syncFile config env l r (syncFile config env l r w).world).world =
        (syncFile config env l r w).world := by
    cases hrev : config.Reverse with
    | false =>
      obtain ⟨hd, hn, hro, hch, hlo, hcp, f, hF⟩ :=
        syncFile_push_returned config env l r w hrev hok
      have h1 := (syncFile_push_ok config env l r w f hrev hd hn hro hch hlo hcp hF).2
      rw [h1]
      have h2 := syncFile_push_ok config env l r
        ⟨w.localFS, w.remoteFS.set r ⟨f.content, 0o644⟩⟩ f hrev hd hn hro hch hlo hcp hF
      refine ⟨h2.1, ?_⟩
      rw [h2.2, FS.set_set]
    | true =>
      obtain ⟨hd, hn, hro, hlo, hcp, f, hR⟩ :=
        syncFile_pull_returned config env l r w hrev hok
      have h1 := (syncFile_pull_ok config env l r w f hrev hd hn hro hlo hcp hR).2
      rw [h1]
      have h2 := syncFile_pull_ok config env l r
        ⟨w.localFS.set l ⟨f.content, match w.localFS l with
          | some g => g.mode
          | none => 0o644 - (0o644 &&& env.umask)⟩, w.remoteFS⟩ f hrev hd hn hro hlo hcp hR
      refine ⟨h2.1, ?_⟩
      rw [h2.2]
      simp only [FS.set_same, FS.set_set]
  refine ⟨key.1, key.2, ?_⟩
  rw [key.2]
  split <;> rfl

/-- The C6 statement for a push of the local file `a` onto the remote file `r`: the
first run returns, the second returns and leaves the same file systems and the same
destination file. -/
theorem syncFile_idempotent_witness :
    (syncFile (sampleConfig "a:r".toList false false) okEnv "a".toList "r".toList
      sampleWorld).outcome = .returned ∧
    (syncFile (sampleConfig "a:r".toList false false) okEnv "a".toList "r".toList
      (syncFile (sampleConfig "a:r".toList false false) okEnv "a".toList "r".toList
        sampleWorld).world).outcome = .returned ∧
    (syncFile (sampleConfig "a:r".toList false false) okEnv "a".toList "r".toList
      (syncFile (sampleConfig "a:r".toList false false) okEnv "a".toList "r".toList
        sampleWorld).world).world =
      (syncFile (sampleConfig "a:r".toList false false) okEnv "a".toList "r".toList
        sampleWorld).world ∧
    (syncFile (sampleConfig "a:r".toList false false) okEnv "a".toList "r".toList
      (syncFile (sampleConfig "a:r".toList false false) okEnv "a".toList "r".toList
        sampleWorld).world).world.remoteFS "r".toList =
      (syncFile (sampleConfig "a:r".toList false false) okEnv "a".toList "r".toList
        sampleWorld).world.remoteFS "r".toList :=
  ⟨rfl, syncFile_idempotent (sampleConfig "a:r".toList false false) okEnv "a".toList
    "r".toList sampleWorld rfl⟩

/-- C8: a push (`Reverse = false`) whose local source `F` does not exist, onto a remote
path `R` that holds a file, in a run where the connection and the remote open are not
refused: the process exits with status 1, `io.Copy` is never called, the local file
system is untouched, and the file at `R` still exists and is empty (with its old mode
if `Chmod` failed, with mode `0644` otherwise), because the remote destination was
opened with create/truncate before the local source was opened. -/
theorem syncFile_push_missing_source (config : Config) (env : Env) (F R : GoString)
    (w : World) (g : File) (hrev : config.Reverse = false)
    (hR : w.remoteFS R = some g) (hF : w.localFS F = none)
    (hd : env.dialErr = none) (hn : env.newClientErr = none)
    (hro : env.remoteOpenErr R (O_WRONLY ||| O_CREATE ||| O_TRUNC) = none) :
    (syncFile config env F R w).outcome = .exited 1 ∧
    Event.ioCopy ∉ (syncFile config env F R w).trace ∧
    ((syncFile config env F R w).world.remoteFS R = some ⟨[], g.mode⟩ ∨
      (syncFile config env F R w).world.remoteFS R = some ⟨[], 0o644⟩) ∧
    (syncFile config env F R w).world.localFS = w.localFS := by
  unfold syncFile SftpConnect
  simp only [hrev, hd, hn, hro, hR, if_true, Bool.false_eq_true, if_false, openFile_wct,
    chmod, FS.set_same, FS.set_set]
  cases hch : env.chmodErr R with
  | some e => simp [FS.set_same]
  | none =>
    obtain ⟨e, he⟩ := openFile_rdonly_none w.localFS F (0o644 - (0o644 &&& env.umask))
      (env.localOpenErr F O_RDONLY) hF
    simp [he, FS.set_same]

/-- The C8 statement for the missing local file `zz` and the existing remote file `r`. -/
theorem syncFile_push_missing_source_witness :
    (syncFile (sampleConfig "zz:r".toList false false) okEnv "zz".toList "r".toList
      sampleWorld).outcome = .exited 1 ∧
    Event.ioCopy ∉ (syncFile (sampleConfig "zz:r".toList false false) okEnv "zz".toList
      "r".toList sampleWorld).trace ∧
    ((syncFile (sampleConfig "zz:r".toList false false) okEnv "zz".toList "r".toList
      sampleWorld).world.remoteFS "r".toList = some ⟨[], 0o600⟩ ∨
     (syncFile (sampleConfig "zz:r".toList false false) okEnv "zz".toList "r".toList
      sampleWorld).world.remoteFS "r".toList = some ⟨[], 0o644⟩) ∧
    (syncFile (sampleConfig "zz:r".toList false false) okEnv "zz".toList "r".toList
      sampleWorld).world.localFS = sampleWorld.localFS :=
  syncFile_push_missing_source (sampleConfig "zz:r".toList false false) okEnv "zz".toList
    "r".toList sampleWorld ⟨[9, 9, 9, 9, 9], 0o600⟩ rfl rfl rfl rfl rfl rfl

/-! ## Session release -/

/-- C7, the code at four failing inputs, one for each failure after a successful
connect (remote open refused, `Chmod` refused, local source missing, copy failed after
one byte): each run connects, ends in `os.Exit(1)` through `log.Fatalln`, and its trace
contains no `client.Close` call, because the deferred calls do not run on exit. -/
theorem syncFile_fatal_skips_client_close :
    ((syncFile (sampleConfig "a:r".toList false false)
        { okEnv with remoteOpenErr := fun _ _ => some (.external 13) }
        "a".toList "r".toList sampleWorld).outcome = .exited 1 ∧
      Event.newClient ∈ (syncFile (sampleConfig "a:r".toList false false)
        { okEnv with remoteOpenErr := fun _ _ => some (.external 13) }
        "a".toList "r".toList sampleWorld).trace ∧
      Event.clientClose ∉ (syncFile (sampleConfig "a:r".toList false false)
        { okEnv with remoteOpenErr := fun _ _ => some (.external 13) }
        "a".toList "r".toList sampleWorld).trace) ∧
    ((syncFile (sampleConfig "a:r".toList false false)
        { okEnv with chmodErr := fun _ => some (.external 1) }
        "a".toList "r".toList sampleWorld).outcome = .exited 1 ∧
      Event.newClient ∈ (syncFile (sampleConfig "a:r".toList false false)
        { okEnv with chmodErr := fun _ => some (.external 1) }
        "a".toList "r".toList sampleWorld).trace ∧
      Event.clientClose ∉ (syncFile (sampleConfig "a:r".toList false false)
        { okEnv with chmodErr := fun _ => some (.external 1) }
        "a".toList "r".toList sampleWorld).trace) ∧
    ((syncFile (sampleConfig "zz:r".toList false false) okEnv
        "zz".toList "r".toList sampleWorld).outcome = .exited 1 ∧
      Event.newClient ∈ (syncFile (sampleConfig "zz:r".toList false false) okEnv
        "zz".toList "r".toList sampleWorld).trace ∧
      Event.clientClose ∉ (syncFile (sampleConfig "zz:r".toList false false) okEnv
        "zz".toList "r".toList sampleWorld).trace) ∧
    ((syncFile (sampleConfig "a:r".toList false false)
        { okEnv with copyErr := some (1, .external 5) }
        "a".toList "r".toList sampleWorld).outcome = .exited 1 ∧
      Event.newClient ∈ (syncFile (sampleConfig "a:r".toList false false)
        { okEnv with copyErr := some (1, .external 5) }
        "a".toList "r".toList sampleWorld).trace ∧
      Event.clientClose ∉ (syncFile (sampleConfig "a:r".toList false false)
        { okEnv with copyErr := some (1, .external 5) }
        "a".toList "r".toList sampleWorld).trace) := by
  refine ⟨⟨rfl, ?_, ?_⟩, ⟨rfl, ?_, ?_⟩, ⟨rfl, ?_, ?_⟩, ⟨rfl, ?_, ?_⟩⟩ <;> decide

/-! ## Order of the two opens -/

/-- C9 fails for a pull: with `Reverse = true`, the missing remote source `zz` and the
existing local destination `a`, the run exits at the remote open; `os.OpenFile` is never
called and the local file keeps its three bytes.  In the pull of `r` that returns, the
read-only open of the remote source comes before the create/truncate open of the local
destination. -/
theorem syncFile_pull_opens_source_first :
    (syncFile (sampleConfig "a:zz".toList false true) okEnv "a".toList "zz".toList
      sampleWorld).outcome = .exited 1 ∧
    (syncFile (sampleConfig "a:zz".toList false true) okEnv "a".toList "zz".toList
      sampleWorld).trace.filter Event.isOpen = [.clientOpenFile "zz".toList O_RDONLY] ∧
    (syncFile (sampleConfig "a:zz".toList false true) okEnv "a".toList "zz".toList
      sampleWorld).world.localFS "a".toList = some ⟨[1, 2, 3], 0o600⟩ ∧
    (syncFile (sampleConfig "a:r".toList false true) okEnv "a".toList "r".toList
      sampleWorld).outcome = .returned ∧
    (syncFile (sampleConfig "a:r".toList false true) okEnv "a".toList "r".toList
      sampleWorld).trace.filter Event.isOpen =
      [.clientOpenFile "r".toList O_RDONLY,
       .osOpenFile "a".toList (O_WRONLY ||| O_CREATE ||| O_TRUNC) 0o644] := by
  refine ⟨rfl, ?_, ?_, rfl, ?_⟩ <;> decide

/-- C9 as amended: in every run of `syncFile` the opens are, in order, at most the
remote open and then the local open; the remote file is opened create/truncate when
pushing and read-only when pulling, the local file read-only when pushing and
create/truncate when pulling.  When pulling and the remote source cannot be opened, the
process exits with `os.OpenFile` never called and the local file system untouched. -/
theorem syncFile_open_order (config : Config) (env : Env) (L R : GoString) (w : World) :
    (syncFile config env L R w).trace.filter Event.isOpen <+:
      [.clientOpenFile R (if config.Reverse = false then O_WRONLY ||| O_CREATE ||| O_TRUNC
          else O_RDONLY),
       .osOpenFile L (if config.Reverse then O_WRONLY ||| O_CREATE ||| O_TRUNC
          else O_RDONLY) 0o644] ∧
    (config.Reverse = true →
      (∃ e, openFile w.remoteFS R O_RDONLY env.remoteCreateMode
        (env.remoteOpenErr R O_RDONLY) = .error e) →
      (syncFile config env L R w).outcome = .exited 1 ∧
      (∀ p fl pm, Event.osOpenFile p fl pm ∉ (syncFile config env L R w).trace) ∧
      (syncFile config env L R w).world.localFS = w.localFS) := by
  constructor
  · unfold syncFile SftpConnect
    cases hrev : config.Reverse with
    | false =>
      simp only [if_true, Bool.false_eq_true, if_false]
      cases env.dialErr with
      | some e => simp [Event.isOpen]
      | none =>
      cases env.newClientErr with
      | some e => simp [Event.isOpen]
      | none =>
      cases openFile w.remoteFS R (O_WRONLY ||| O_CREATE ||| O_TRUNC) env.remoteCreateMode
        (env.remoteOpenErr R (O_WRONLY ||| O_CREATE ||| O_TRUNC)) with
      | error e => simp [Event.isOpen, List.prefix_cons_inj]
      | ok rfs1 =>
      dsimp only
      cases chmod rfs1 R 0o644 (env.chmodErr R) with
      | error e => simp [Event.isOpen, List.prefix_cons_inj]
      | ok rfs2 =>
      dsimp only
      cases openFile w.localFS L O_RDONLY (0o644 - (0o644 &&& env.umask))
        (env.localOpenErr L O_RDONLY) with
      | error e => simp [Event.isOpen, List.prefix_cons_inj]
      | ok lfs1 => cases env.copyErr <;> simp [ioCopy, Event.isOpen, List.prefix_cons_inj]
    | true =>
      simp only [if_true, Bool.true_eq_false, if_false]
      cases env.dialErr with
      | some e => simp [Event.isOpen]
      | none =>
      cases env.newClientErr with
      | some e => simp [Event.isOpen]
      | none =>
      cases openFile w.remoteFS R O_RDONLY env.remoteCreateMode
        (env.remoteOpenErr R O_RDONLY) with
      | error e => simp [Event.isOpen, List.prefix_cons_inj]
      | ok rfs1 =>
      cases openFile w.localFS L (O_WRONLY ||| O_CREATE ||| O_TRUNC)
        (0o644 - (0o644 &&& env.umask))
        (env.localOpenErr L (O_WRONLY ||| O_CREATE ||| O_TRUNC)) with
      | error e => simp [Event.isOpen, List.prefix_cons_inj]
      | ok lfs1 => cases env.copyErr <;> simp [ioCopy, Event.isOpen, List.prefix_cons_inj]
  · rintro hrev ⟨e, he⟩
    unfold syncFile SftpConnect
    simp only [hrev, he, if_true, Bool.true_eq_false, if_false]
    cases env.dialErr with
    | some e => simp
    | none => cases env.newClientErr <;> simp

/-- The C9 statement as amended, at the pull of the missing remote file `zz`. -/
theorem syncFile_open_order_witness :
    (syncFile (sampleConfig "a:zz".toList false true) okEnv "a".toList "zz".toList
      sampleWorld).outcome = .exited 1 ∧
    (∀ p fl pm, Event.osOpenFile p fl pm ∉ (syncFile (sampleConfig "a:zz".toList false true)
      okEnv "a".toList "zz".toList sampleWorld).trace) ∧
    (syncFile (sampleConfig "a:zz".toList false true) okEnv "a".toList "zz".toList
      sampleWorld).world.localFS = sampleWorld.localFS :=
  (syncFile_open_order (sampleConfig "a:zz".toList false true) okEnv "a".toList "zz".toList
    sampleWorld).2 rfl ⟨.notExist "zz".toList, rfl⟩

/-! ## Empty path segments -/

/-- C3 fails: the path specs `:r`, `a:` and `:` each split into exactly two segments, one
or both of them empty; `getFilePath` accepts them and the run goes on to the connection
attempt with an empty local or remote path. -/
theorem main_connects_with_empty_segment :
    (getFilePath (sampleConfig ":r".toList false false) = .ok ([], "r".toList) ∧
      ∃ e ∈ (main 9 (sampleConfig ":r".toList false false) okEnv sampleWorld).trace,
        e.isConnect = true) ∧
    (getFilePath (sampleConfig "a:".toList false false) = .ok ("a".toList, []) ∧
      ∃ e ∈ (main 9 (sampleConfig "a:".toList false false) okEnv sampleWorld).trace,
        e.isConnect = true) ∧
    (getFilePath (sampleConfig ":".toList false false) = .ok ([], []) ∧
      ∃ e ∈ (main 9 (sampleConfig ":".toList false false) okEnv sampleWorld).trace,
        e.isConnect = true) := by
  refine ⟨⟨rfl, ?_⟩, ⟨rfl, ?_⟩, ⟨rfl, ?_⟩⟩ <;> decide

/-- C3 as amended: when the path spec does not split on `':'` into exactly two segments
(empty or not), no run of `main` attempts a connection or opens a file, the file systems
are untouched, and a run that gets past the version and usage exits with status 1. -/
theorem main_no_connect_of_segments_ne_two (osArgsLen : Nat) (config : Config) (env : Env)
    (w : World) (h : (Split config.FilePath ':').length ≠ 2) :
    (∀ e ∈ (main osArgsLen config env w).trace, e.isConnect = false ∧ e.isOpen = false) ∧
    (main osArgsLen config env w).world = w ∧
    (config.Version = false → osArgsLen ≠ 1 →
      (main osArgsLen config env w).outcome = .exited 1) := by
  have hg : getFilePath config = .error [.str "Please input the correct file path".toList] := by
    unfold getFilePath
    simp [h]
  unfold main
  cases hv : config.Version with
  | true => simp [Event.isConnect, Event.isOpen]
  | false =>
    by_cases hargs : osArgsLen = 1
    · simp [hargs, Event.isConnect, Event.isOpen]
    · cases hc : checkArgs config with
      | some msg => simp [hargs, Event.isConnect, Event.isOpen]
      | none => cases config.Debug <;> simp [hargs, hg, Event.isConnect, Event.isOpen]

/-- The C3 statement as amended, at the path spec `abc`, which has a single segment. -/
theorem main_no_connect_of_segments_ne_two_witness :
    (∀ e ∈ (main 9 (sampleConfig "abc".toList false false) okEnv sampleWorld).trace,
      e.isConnect = false ∧ e.isOpen = false) ∧
    (main 9 (sampleConfig "abc".toList false false) okEnv sampleWorld).world = sampleWorld ∧
    (main 9 (sampleConfig "abc".toList false false) okEnv sampleWorld).outcome = .exited 1 :=
  have h := main_no_connect_of_segments_ne_two 9 (sampleConfig "abc".toList false false)
    okEnv sampleWorld (by decide)
  ⟨h.1, h.2.1, h.2.2 rfl (by decide)⟩

end Syncscp
